import Mathlib

/-!
Shallow embedding of the interop test client (`interop/client/main.go`).

External collaborators (the `net/http` request builder, the HTTP/3 and
HTTP/0.9 round-trippers, the filesystem, handle closing) are modelled by an
`Oracle` of result functions; the orchestration logic of the client is
translated function by function.  A `St` value carries the observable
effects: an event trace (handles opened, fetches performed, handles closed),
the list of files created under the download root, the process-global
`protocol.SupportedVersions` slice, and the `ClientSessionCache` slot of the
shared `tls.Config`.
-/

deriving instance DecidableEq for Except

namespace Interop

/-- The two round-tripper variants: `http3.RoundTripper` and
`http09.RoundTripper`. -/
inductive TKind where
  | h3
  | h09
deriving DecidableEq

/-- Observable events of a run.  `openH id kind withTLSConf cache` records
construction of a round-tripper (`cache` snapshots the session cache installed
in the shared `tls.Config`, `none` when the round-tripper is built without
`TLSClientConfig`); `fetch` records one `downloadFile` invocation on a handle;
`close` records a `Close` call on the handle. -/
inductive Ev where
  | openH (id : Nat) (kind : TKind) (withTLSConf : Bool) (cache : Option Nat)
  | fetch (id : Nat) (url : String) (use0RTT : Bool)
  | close (id : Nat)
deriving DecidableEq

/-- Program state: fresh handle counter, generation counter for
`tls.NewLRUClientSessionCache` installs, the cache currently installed in the
shared `tls.Config` (`tlsConf.ClientSessionCache`), the global
`protocol.SupportedVersions`, the event trace, and files created under the
download root. -/
structure St where
  nextId : Nat
  cacheGen : Nat
  tlsCache : Option Nat
  supportedVersions : List Nat
  trace : List Ev
  files : List String
deriving DecidableEq

/-- The part of an `http.Request` the client uses: the method and
`req.URL.Path`. -/
structure Request where
  method : String
  urlPath : String
deriving DecidableEq

/-- Oracle for the external collaborators: `http.NewRequest` (method, url),
`RoundTrip` on a given handle, `os.Create` at a path, `io.Copy` into the file
at a path, and `Close` of a handle.  Errors are their message strings. -/
structure Oracle where
  newRequest : String → String → Except String Request
  roundTrip : Nat → Request → Except String Unit
  createRes : String → Except String Unit
  copyRes : String → Except String Unit
  closeRes : Nat → Except String Unit

def methodGet : String := "GET"

/-- Modelled from the spec: `http09.MethodGet0RTT`, the distinguished
"0-RTT retrieval" method tag of the `interop/http09` package, which is not in
the provided sources; only its distinctness from `GET` matters here. -/
def methodGet0RTT : String := "GET_0RTT"

def downloadRoot : String := "/downloads"

/-- Message of `errUnsupported = errors.New("unsupported test case")`. -/
def errUnsupported : String := "unsupported test case"

/-- The substring `runVersionNegotiationTest` requires in the failure text. -/
def vnSubstr : String := "No compatible QUIC version found"

/-- The single reserved version installed by the probe:
`protocol.SupportedVersions = []protocol.VersionNumber{0x1a2a3a4a}`. -/
def reservedVersion : Nat := 0x1a2a3a4a

/-- Does `pre` lead the list `l` (i.e. is `pre` an initial segment of `l`)? -/
def charsLeadWith : List Char → List Char → Bool
  | [], _ => true
  | _ :: _, [] => false
  | a :: as, b :: bs => a == b && charsLeadWith as bs

/-- Does `needle` occur contiguously inside `hay`? -/
def charsContain (needle : List Char) : List Char → Bool
  | [] => charsLeadWith needle []
  | c :: t => charsLeadWith needle (c :: t) || charsContain needle t

/-- Model of Go `strings.Contains s sub`. -/
def strContains (s sub : String) : Bool :=
  charsContain sub.data s.data

/-- Append one event to the trace. -/
def pushEv (e : Ev) (s : St) : St :=
  { s with trace := s.trace ++ [e] }

/-- Model of `downloadFile`: choose the method from `use0RTT`, build the
request, perform the round trip, create `/downloads + req.URL.Path`, copy the
body into it.  Each early error is returned; the file exists as soon as
`os.Create` succeeded, even if the copy then fails. -/
def downloadFile (o : Oracle) (id : Nat) (url : String) (use0RTT : Bool)
    (s : St) : Except String Unit × St :=
  let s1 := pushEv (.fetch id url use0RTT) s
  let method := if use0RTT then methodGet0RTT else methodGet
  match o.newRequest method url with
  | .error e => (.error e, s1)
  | .ok req =>
    match o.roundTrip id req with
    | .error e => (.error e, s1)
    | .ok _ =>
      match o.createRes (downloadRoot ++ req.urlPath) with
      | .error e => (.error e, s1)
      | .ok _ =>
        (o.copyRes (downloadRoot ++ req.urlPath),
         { s1 with files := s1.files ++ [downloadRoot ++ req.urlPath] })

/-- The result value of one `downloadFile` call, as a function of the oracle
alone. -/
def fetchOutcome (o : Oracle) (id : Nat) (url : String) (use0RTT : Bool) :
    Except String Unit :=
  let method := if use0RTT then methodGet0RTT else methodGet
  match o.newRequest method url with
  | .error e => .error e
  | .ok req =>
    match o.roundTrip id req with
    | .error e => .error e
    | .ok _ =>
      match o.createRes (downloadRoot ++ req.urlPath) with
      | .error e => .error e
      | .ok _ => o.copyRes (downloadRoot ++ req.urlPath)

/-- The files one `downloadFile` call creates, as a function of the oracle
alone. -/
def dfFiles (o : Oracle) (id : Nat) (url : String) (use0RTT : Bool) :
    List String :=
  let method := if use0RTT then methodGet0RTT else methodGet
  match o.newRequest method url with
  | .error _ => []
  | .ok req =>
    match o.roundTrip id req with
    | .error _ => []
    | .ok _ =>
      match o.createRes (downloadRoot ++ req.urlPath) with
      | .error _ => []
      | .ok _ => [downloadRoot ++ req.urlPath]

/-- Model of `downloadFiles`: run one `downloadFile` per URL (all of them —
`errgroup.Group` never cancels in-flight siblings) and return the first error
observed.  The concurrent fan-out is determinised to list order. -/
def downloadFiles (o : Oracle) (id : Nat) (urls : List String)
    (use0RTT : Bool) (s : St) : Except String Unit × St :=
  match urls with
  | [] => (.ok (), s)
  | u :: rest =>
    let p := downloadFile o id u use0RTT s
    let q := downloadFiles o id rest use0RTT p.2
    (match p.1 with
     | .error e => .error e
     | .ok _ => q.1, q.2)

/-- First error of a list of results, `.ok ()` when there is none. -/
def firstErr : List (Except String Unit) → Except String Unit
  | [] => .ok ()
  | r :: rest =>
    match r with
    | .error e => .error e
    | .ok _ => firstErr rest

/-- The files a `downloadFiles` call creates, one `dfFiles` batch per URL. -/
def filesOf (o : Oracle) (id : Nat) (b : Bool) : List String → List String
  | [] => []
  | u :: rest => dfFiles o id u b ++ filesOf o id b rest

/-- Construct a round-tripper: hand out `nextId` and record the open event,
snapshotting the session cache of the shared TLS config when the
round-tripper is built with `TLSClientConfig: tlsConf`. -/
def openHandle (kind : TKind) (withTLSConf : Bool) (s : St) : Nat × St :=
  (s.nextId,
   { s with
     nextId := s.nextId + 1,
     trace := s.trace ++
       [.openH s.nextId kind withTLSConf
         (if withTLSConf then s.tlsCache else none)] })

/-- `r.Close()`: record the close event and yield the oracle's result. -/
def closeHandle (o : Oracle) (id : Nat) (s : St) : Except String Unit × St :=
  (o.closeRes id, pushEv (.close id) s)

/-- The shared tail of `runTestcase`: build one round-tripper, download all
URLs through it, `defer r.Close()` (whose error the `defer` discards), and
return the download result.  This is the body of both the `http3` case and
the `handshake`/`transfer`/`retry` fall-through. -/
def runPlainTransfer (o : Oracle) (kind : TKind) (urls : List String)
    (s : St) : Except String Unit × St :=
  let p := openHandle kind true s
  let q := downloadFiles o p.1 urls false p.2
  let c := closeHandle o p.1 q.2
  (q.1, c.2)

/-- Model of `runVersionNegotiationTest`.  With other than one URL it returns
the (literally worded) error "expected at least 2 URLs".  Otherwise it
overwrites `protocol.SupportedVersions` with the reserved version, builds an
`http09.RoundTripper{}` without `TLSClientConfig`, downloads the single URL,
and inspects the outcome; the handle is never closed. -/
def runVersionNegotiationTest (o : Oracle) (urls : List String) (s : St) :
    Except String Unit × St :=
  match urls with
  | [url] =>
    let s1 := { s with supportedVersions := [reservedVersion] }
    let p := openHandle .h09 false s1
    let q := downloadFile o p.1 url false p.2
    match q.1 with
    | .ok _ => (.error "expected version negotiation to fail", q.2)
    | .error e =>
      if strContains e vnSubstr then (.ok (), q.2)
      else (.error ("expect version negotiation error, got: " ++ e), q.2)
  | _ => (.error "expected at least 2 URLs", s)

/-- Model of `runMultiConnectTest`: per URL, build a fresh round-tripper,
download, and close; return on the first download error (leaving that handle
open) or the first close error. -/
def runMultiConnectTest (o : Oracle) (urls : List String) (s : St) :
    Except String Unit × St :=
  match urls with
  | [] => (.ok (), s)
  | u :: rest =>
    let p := openHandle .h09 true s
    let q := downloadFile o p.1 u false p.2
    match q.1 with
    | .error e => (.error e, q.2)
    | .ok _ =>
      let c := closeHandle o p.1 q.2
      match c.1 with
      | .error e => (.error e, c.2)
      | .ok _ => runMultiConnectTest o rest c.2

/-- Model of `runResumptionTest`: require at least two URLs, install a fresh
session cache into the shared TLS config, download `urls[:1]` on a first
round-tripper (returning without closing it on failure), close it discarding
the error, then download `urls[1:]` with `use0RTT` on a second round-tripper
whose deferred close error is also discarded. -/
def runResumptionTest (o : Oracle) (urls : List String) (use0RTT : Bool)
    (s : St) : Except String Unit × St :=
  if urls.length < 2 then (.error "expected at least 2 URLs", s)
  else
    let s1 := { s with cacheGen := s.cacheGen + 1, tlsCache := some s.cacheGen }
    let p := openHandle .h09 true s1
    let q := downloadFiles o p.1 (urls.take 1) false p.2
    match q.1 with
    | .error e => (.error e, q.2)
    | .ok _ =>
      let c1 := closeHandle o p.1 q.2
      let p2 := openHandle .h09 true c1.2
      let q2 := downloadFiles o p2.1 (urls.drop 1) use0RTT p2.2
      let c2 := closeHandle o p2.1 q2.2
      (q2.1, c2.2)

/-- Model of `runTestcase`'s dispatch switch. -/
def runTestcase (o : Oracle) (testcase : String) (urls : List String)
    (s : St) : Except String Unit × St :=
  if testcase = "http3" then runPlainTransfer o .h3 urls s
  else if testcase = "handshake" ∨ testcase = "transfer" ∨ testcase = "retry"
    then runPlainTransfer o .h09 urls s
  else if testcase = "multiconnect" then runMultiConnectTest o urls s
  else if testcase = "versionnegotiation" then
    runVersionNegotiationTest o urls s
  else if testcase = "resumption" then runResumptionTest o urls false s
  else if testcase = "zerortt" then runResumptionTest o urls true s
  else (.error errUnsupported, s)

/-- Ids of the open events of a trace. -/
def opensIn : List Ev → List Nat
  | [] => []
  | .openH id _ _ _ :: t => id :: opensIn t
  | _ :: t => opensIn t

/-- Ids of the close events of a trace. -/
def closesIn : List Ev → List Nat
  | [] => []
  | .close id :: t => id :: closesIn t
  | _ :: t => closesIn t

/-- The trace multi-connect produces on URLs it fully processes: per URL one
open, one fetch and one close, all on one fresh handle, strictly in
sequence. -/
def mcTrace (n : Nat) (cache : Option Nat) : List String → List Ev
  | [] => []
  | u :: rest =>
    .openH n .h09 true cache :: .fetch n u false :: .close n ::
      mcTrace (n + 1) cache rest

/-- Oracle on which every external operation succeeds. -/
def oAllOk : Oracle where
  newRequest := fun m u => .ok { method := m, urlPath := u }
  roundTrip := fun _ _ => .ok ()
  createRes := fun _ => .ok ()
  copyRes := fun _ => .ok ()
  closeRes := fun _ => .ok ()

/-- Oracle whose round trips all fail with a generic transport error. -/
def oFetchFail : Oracle where
  newRequest := fun m u => .ok { method := m, urlPath := u }
  roundTrip := fun _ _ => .error "connection refused"
  createRes := fun _ => .ok ()
  copyRes := fun _ => .ok ()
  closeRes := fun _ => .ok ()

/-- Oracle whose round trips fail with the version-negotiation message. -/
def oVNReject : Oracle where
  newRequest := fun m u => .ok { method := m, urlPath := u }
  roundTrip := fun _ _ => .error "No compatible QUIC version found"
  createRes := fun _ => .ok ()
  copyRes := fun _ => .ok ()
  closeRes := fun _ => .ok ()

/-- Oracle on which closing a handle always fails. -/
def oCloseFail : Oracle where
  newRequest := fun m u => .ok { method := m, urlPath := u }
  roundTrip := fun _ _ => .ok ()
  createRes := fun _ => .ok ()
  copyRes := fun _ => .ok ()
  closeRes := fun _ => .error "close failed"

/-- A start state with an empty trace. -/
def st0 : St where
  nextId := 0
  cacheGen := 0
  tlsCache := none
  supportedVersions := [1, 2]
  trace := []
  files := []

theorem downloadFile_eq (o : Oracle) (id : Nat) (url : String) (b : Bool)
    (s : St) :
    downloadFile o id url b s =
      (fetchOutcome o id url b,
       { s with
         trace := s.trace ++ [.fetch id url b],
         files := s.files ++ dfFiles o id url b }) := by
  cases hr : o.newRequest (if b then methodGet0RTT else methodGet) url with
  | error e => simp [downloadFile, fetchOutcome, dfFiles, pushEv, hr]
  | ok req =>
    cases ht : o.roundTrip id req with
    | error e => simp [downloadFile, fetchOutcome, dfFiles, pushEv, hr, ht]
    | ok v =>
      cases hc : o.createRes (downloadRoot ++ req.urlPath) with
      | error e =>
        simp [downloadFile, fetchOutcome, dfFiles, pushEv, hr, ht, hc]
      | ok w =>
        simp [downloadFile, fetchOutcome, dfFiles, pushEv, hr, ht, hc]

theorem downloadFiles_eq (o : Oracle) (id : Nat) (urls : List String)
    (b : Bool) (s : St) :
    downloadFiles o id urls b s =
      (firstErr (urls.map (fun u => fetchOutcome o id u b)),
       { s with
         trace := s.trace ++ urls.map (fun u => Ev.fetch id u b),
         files := s.files ++ filesOf o id b urls }) := by
  induction urls generalizing s with
  | nil => simp [downloadFiles, firstErr, filesOf]
  | cons u rest ih =>
    simp only [downloadFiles, downloadFile_eq, ih, List.map_cons, firstErr,
      filesOf]
    cases fetchOutcome o id u b <;> simp [List.append_assoc]

theorem firstErr_ok_iff (l : List (Except String Unit)) :
    firstErr l = .ok () ↔ ∀ r ∈ l, r = .ok () := by
  induction l with
  | nil => simp [firstErr]
  | cons r rest ih =>
    cases r with
    | error e => simp [firstErr]
    | ok v => cases v; simp [firstErr, ih]

theorem firstErr_error_mem (l : List (Except String Unit)) (e : String) :
    firstErr l = .error e → Except.error e ∈ l := by
  induction l with
  | nil => simp [firstErr]
  | cons r rest ih =>
    cases r with
    | error e2 =>
      intro h
      simp only [firstErr, Except.error.injEq] at h
      simp [h]
    | ok v =>
      intro h
      simp only [firstErr] at h
      exact List.mem_cons_of_mem _ (ih h)

/-- One unfolding of the version-negotiation probe on a singleton list:
its result is decided by the single fetch outcome, and its state is the same
on all three branches. -/
theorem runVersionNegotiationTest_eq (o : Oracle) (url : String) (s : St) :
    runVersionNegotiationTest o [url] s =
      ((match fetchOutcome o s.nextId url false with
        | .ok _ => .error "expected version negotiation to fail"
        | .error e =>
          if strContains e vnSubstr then .ok ()
          else .error ("expect version negotiation error, got: " ++ e)),
       { s with
         supportedVersions := [reservedVersion],
         nextId := s.nextId + 1,
         trace := s.trace ++
           [.openH s.nextId .h09 false none, .fetch s.nextId url false],
         files := s.files ++ dfFiles o s.nextId url false }) := by
  cases hf : fetchOutcome o s.nextId url false with
  | ok v =>
    cases v
    simp [runVersionNegotiationTest, openHandle, downloadFile_eq, pushEv, hf]
  | error e =>
    cases hc : strContains e vnSubstr <;>
      simp [runVersionNegotiationTest, openHandle, downloadFile_eq, pushEv,
        hf, hc]

/-- Replacing the close results of the oracle does not change any fetch
outcome. -/
theorem fetchOutcome_closeRes (o : Oracle) (f : Nat → Except String Unit)
    (id : Nat) (u : String) (b : Bool) :
    fetchOutcome { o with closeRes := f } id u b = fetchOutcome o id u b :=
  rfl

/-- The result of a plain transfer is the first error among the fetch
outcomes on the single handle; the close result is discarded by the
`defer`. -/
theorem runPlainTransfer_fst (o : Oracle) (kind : TKind) (urls : List String)
    (s : St) :
    (runPlainTransfer o kind urls s).1 =
      firstErr (urls.map (fun u => fetchOutcome o s.nextId u false)) := by
  simp [runPlainTransfer, openHandle, downloadFiles_eq, closeHandle]

/-- The trace of a plain transfer: one open, all fetches, one close. -/
theorem runPlainTransfer_trace (o : Oracle) (kind : TKind)
    (urls : List String) (s : St) :
    (runPlainTransfer o kind urls s).2.trace =
      s.trace ++ Ev.openH s.nextId kind true s.tlsCache ::
        (urls.map (fun u => Ev.fetch s.nextId u false) ++
          [Ev.close s.nextId]) := by
  simp [runPlainTransfer, openHandle, downloadFiles_eq, closeHandle, pushEv,
    List.append_assoc]

/-- Resumption on at least two URLs whose first fetch fails: the failure is
returned and nothing beyond the first open and first fetch happens — in
particular the first handle is never closed. -/
theorem runResumptionTest_phase1_fail (o : Oracle) (u v : String)
    (rest : List String) (b : Bool) (s : St) (e : String)
    (hf : fetchOutcome o s.nextId u false = .error e) :
    (runResumptionTest o (u :: v :: rest) b s).1 = .error e ∧
    (runResumptionTest o (u :: v :: rest) b s).2.trace =
      s.trace ++ [.openH s.nextId .h09 true (some s.cacheGen),
                  .fetch s.nextId u false] := by
  have hlen : ¬ rest.length + 1 + 1 < 2 := by omega
  constructor <;>
    simp [runResumptionTest, hlen, openHandle, downloadFiles_eq, closeHandle,
      pushEv, firstErr, hf, List.take_succ_cons, List.take_zero,
      List.append_assoc]

/-- Resumption on at least two URLs whose first fetch succeeds: phase 1
fetches the first URL without 0-RTT and its handle is closed (discarding the
close result), then a second handle sharing the installed session cache
fetches the remaining URLs with the caller's `use0RTT`; its deferred close is
recorded and its error discarded. -/
theorem runResumptionTest_phase1_ok (o : Oracle) (u v : String)
    (rest : List String) (b : Bool) (s : St)
    (hf : fetchOutcome o s.nextId u false = .ok ()) :
    (runResumptionTest o (u :: v :: rest) b s).1 =
      firstErr
        ((v :: rest).map (fun w => fetchOutcome o (s.nextId + 1) w b)) ∧
    (runResumptionTest o (u :: v :: rest) b s).2.trace =
      s.trace ++
        [.openH s.nextId .h09 true (some s.cacheGen),
         .fetch s.nextId u false,
         .close s.nextId,
         .openH (s.nextId + 1) .h09 true (some s.cacheGen)] ++
        (v :: rest).map (fun w => Ev.fetch (s.nextId + 1) w b) ++
        [.close (s.nextId + 1)] := by
  have hlen : ¬ rest.length + 1 + 1 < 2 := by omega
  constructor <;>
    simp [runResumptionTest, hlen, openHandle, downloadFiles_eq, closeHandle,
      pushEv, firstErr, hf, List.take_succ_cons, List.take_zero,
      List.append_assoc]

theorem opensIn_append (a b : List Ev) :
    opensIn (a ++ b) = opensIn a ++ opensIn b := by
  induction a with
  | nil => simp [opensIn]
  | cons e t ih => cases e <;> simp [opensIn, ih]

theorem closesIn_append (a b : List Ev) :
    closesIn (a ++ b) = closesIn a ++ closesIn b := by
  induction a with
  | nil => simp [closesIn]
  | cons e t ih => cases e <;> simp [closesIn, ih]

theorem opensIn_map_fetch (id : Nat) (b : Bool) (urls : List String) :
    opensIn (urls.map (fun u => Ev.fetch id u b)) = [] := by
  induction urls with
  | nil => rfl
  | cons u rest ih => simp [opensIn, ih]

theorem closesIn_map_fetch (id : Nat) (b : Bool) (urls : List String) :
    closesIn (urls.map (fun u => Ev.fetch id u b)) = [] := by
  induction urls with
  | nil => rfl
  | cons u rest ih => simp [closesIn, ih]

/-- A fully successful multi-connect stage reduces to the tail with the
handle counter advanced and the open/fetch/close block recorded. -/
theorem runMultiConnectTest_step_ok (o : Oracle) (u : String)
    (rest : List String) (s : St)
    (hf : fetchOutcome o s.nextId u false = .ok ())
    (hc : o.closeRes s.nextId = .ok ()) :
    runMultiConnectTest o (u :: rest) s =
      runMultiConnectTest o rest
        { s with
          nextId := s.nextId + 1,
          trace := s.trace ++
            [.openH s.nextId .h09 true s.tlsCache,
             .fetch s.nextId u false, .close s.nextId],
          files := s.files ++ dfFiles o s.nextId u false } := by
  simp [runMultiConnectTest, openHandle, downloadFile_eq, closeHandle,
    pushEv, hf, hc, List.append_assoc]

/-- A multi-connect stage whose fetch fails returns that error immediately;
the handle stays open and nothing further happens. -/
theorem runMultiConnectTest_head_fetchFail (o : Oracle) (u : String)
    (rest : List String) (s : St) (e : String)
    (hf : fetchOutcome o s.nextId u false = .error e) :
    (runMultiConnectTest o (u :: rest) s).1 = .error e ∧
    (runMultiConnectTest o (u :: rest) s).2.trace =
      s.trace ++ [.openH s.nextId .h09 true s.tlsCache,
                  .fetch s.nextId u false] := by
  constructor <;>
    simp [runMultiConnectTest, openHandle, downloadFile_eq, closeHandle,
      pushEv, hf, List.append_assoc]

/-- A multi-connect stage whose fetch succeeds but whose close fails returns
the close error immediately after recording the close. -/
theorem runMultiConnectTest_head_closeFail (o : Oracle) (u : String)
    (rest : List String) (s : St) (e : String)
    (hf : fetchOutcome o s.nextId u false = .ok ())
    (hc : o.closeRes s.nextId = .error e) :
    (runMultiConnectTest o (u :: rest) s).1 = .error e ∧
    (runMultiConnectTest o (u :: rest) s).2.trace =
      s.trace ++ [.openH s.nextId .h09 true s.tlsCache,
                  .fetch s.nextId u false, .close s.nextId] := by
  constructor <;>
    simp [runMultiConnectTest, openHandle, downloadFile_eq, closeHandle,
      pushEv, hf, hc, List.append_assoc]

/-- Multi-connect on URLs whose fetches and closes all succeed: it succeeds
and appends exactly the sequential open/fetch/close blocks. -/
theorem runMultiConnectTest_allOk (o : Oracle) (urls : List String)
    (s : St) :
    (∀ i, (hi : i < urls.length) →
      fetchOutcome o (s.nextId + i) (urls.get ⟨i, hi⟩) false = .ok () ∧
      o.closeRes (s.nextId + i) = .ok ()) →
    (runMultiConnectTest o urls s).1 = .ok () ∧
    (runMultiConnectTest o urls s).2.trace =
      s.trace ++ mcTrace s.nextId s.tlsCache urls := by
  induction urls generalizing s with
  | nil =>
    intro _
    simp [runMultiConnectTest, mcTrace]
  | cons u rest ih =>
    intro h
    have h0 := h 0 (Nat.succ_pos rest.length)
    simp only [List.get, Nat.add_zero] at h0
    rw [runMultiConnectTest_step_ok o u rest s h0.1 h0.2]
    have ihx := ih
      { s with
        nextId := s.nextId + 1,
        trace := s.trace ++
          [.openH s.nextId .h09 true s.tlsCache,
           .fetch s.nextId u false, .close s.nextId],
        files := s.files ++ dfFiles o s.nextId u false }
      (fun i hi => by
        have hx := h (i + 1) (Nat.succ_lt_succ hi)
        simp only [List.get] at hx
        have ha2 : s.nextId + (i + 1) = s.nextId + 1 + i := by omega
        rw [ha2] at hx
        exact hx)
    refine ⟨ihx.1, ?_⟩
    rw [ihx.2]
    simp [mcTrace, List.append_assoc]

/-- Multi-connect where the first failure is the fetch of the URL at
position `k`: the stages before `k` run completely, stage `k` opens and
fetches, and the run stops there with that error. -/
theorem runMultiConnectTest_fetchFail (o : Oracle) (urls : List String)
    (s : St) (k : Nat) (e : String) :
    ∀ (hk : k < urls.length),
      (∀ i, (hi : i < k) →
        fetchOutcome o (s.nextId + i) (urls.get ⟨i, Nat.lt_trans hi hk⟩)
            false = .ok () ∧
        o.closeRes (s.nextId + i) = .ok ()) →
      fetchOutcome o (s.nextId + k) (urls.get ⟨k, hk⟩) false = .error e →
      (runMultiConnectTest o urls s).1 = .error e ∧
      (runMultiConnectTest o urls s).2.trace =
        s.trace ++ mcTrace s.nextId s.tlsCache (urls.take k) ++
          [.openH (s.nextId + k) .h09 true s.tlsCache,
           .fetch (s.nextId + k) (urls.get ⟨k, hk⟩) false] := by
  induction urls generalizing s k with
  | nil =>
    intro hk _ _
    exact absurd hk (Nat.not_lt_zero k)
  | cons u rest ih =>
    intro hk hpre hf
    cases k with
    | zero =>
      simp only [List.get, Nat.add_zero] at hf
      have hhead := runMultiConnectTest_head_fetchFail o u rest s e hf
      refine ⟨hhead.1, ?_⟩
      rw [hhead.2]
      simp [mcTrace, List.take_zero, List.get]
    | succ k2 =>
      have h0 := hpre 0 (Nat.succ_pos k2)
      simp only [List.get, Nat.add_zero] at h0
      rw [runMultiConnectTest_step_ok o u rest s h0.1 h0.2]
      have hk2 : k2 < rest.length := Nat.lt_of_succ_lt_succ hk
      have harith : s.nextId + (k2 + 1) = s.nextId + 1 + k2 := by omega
      have hf2 : fetchOutcome o (s.nextId + 1 + k2) (rest.get ⟨k2, hk2⟩)
          false = .error e := by
        simp only [List.get] at hf
        rw [harith] at hf
        exact hf
      have ihx := ih
        { s with
          nextId := s.nextId + 1,
          trace := s.trace ++
            [.openH s.nextId .h09 true s.tlsCache,
             .fetch s.nextId u false, .close s.nextId],
          files := s.files ++ dfFiles o s.nextId u false }
        k2 hk2
        (fun i hi => by
          have hx := hpre (i + 1) (Nat.succ_lt_succ hi)
          simp only [List.get] at hx
          have ha2 : s.nextId + (i + 1) = s.nextId + 1 + i := by omega
          rw [ha2] at hx
          exact hx)
        hf2
      refine ⟨ihx.1, ?_⟩
      rw [ihx.2]
      simp only [List.get, List.take_succ_cons]
      simp [mcTrace, List.append_assoc, harith]

/-- Multi-connect where the first failure is the close of the handle at
position `k`: the stages before `k` run completely, stage `k` opens, fetches
and records its close, and the run stops there with the close error. -/
theorem runMultiConnectTest_closeFail (o : Oracle) (urls : List String)
    (s : St) (k : Nat) (e : String) :
    ∀ (hk : k < urls.length),
      (∀ i, (hi : i < k) →
        fetchOutcome o (s.nextId + i) (urls.get ⟨i, Nat.lt_trans hi hk⟩)
            false = .ok () ∧
        o.closeRes (s.nextId + i) = .ok ()) →
      fetchOutcome o (s.nextId + k) (urls.get ⟨k, hk⟩) false = .ok () →
      o.closeRes (s.nextId + k) = .error e →
      (runMultiConnectTest o urls s).1 = .error e ∧
      (runMultiConnectTest o urls s).2.trace =
        s.trace ++ mcTrace s.nextId s.tlsCache (urls.take k) ++
          [.openH (s.nextId + k) .h09 true s.tlsCache,
           .fetch (s.nextId + k) (urls.get ⟨k, hk⟩) false,
           .close (s.nextId + k)] := by
  induction urls generalizing s k with
  | nil =>
    intro hk _ _ _
    exact absurd hk (Nat.not_lt_zero k)
  | cons u rest ih =>
    intro hk hpre hf hc
    cases k with
    | zero =>
      simp only [List.get, Nat.add_zero] at hf
      rw [Nat.add_zero] at hc
      have hhead := runMultiConnectTest_head_closeFail o u rest s e hf hc
      refine ⟨hhead.1, ?_⟩
      rw [hhead.2]
      simp [mcTrace, List.take_zero, List.get]
    | succ k2 =>
      have h0 := hpre 0 (Nat.succ_pos k2)
      simp only [List.get, Nat.add_zero] at h0
      rw [runMultiConnectTest_step_ok o u rest s h0.1 h0.2]
      have hk2 : k2 < rest.length := Nat.lt_of_succ_lt_succ hk
      have harith : s.nextId + (k2 + 1) = s.nextId + 1 + k2 := by omega
      have hf2 : fetchOutcome o (s.nextId + 1 + k2) (rest.get ⟨k2, hk2⟩)
          false = .ok () := by
        simp only [List.get] at hf
        rw [harith] at hf
        exact hf
      have hc2 : o.closeRes (s.nextId + 1 + k2) = .error e := by
        rw [harith] at hc
        exact hc
      have ihx := ih
        { s with
          nextId := s.nextId + 1,
          trace := s.trace ++
            [.openH s.nextId .h09 true s.tlsCache,
             .fetch s.nextId u false, .close s.nextId],
          files := s.files ++ dfFiles o s.nextId u false }
        k2 hk2
        (fun i hi => by
          have hx := hpre (i + 1) (Nat.succ_lt_succ hi)
          simp only [List.get] at hx
          have ha2 : s.nextId + (i + 1) = s.nextId + 1 + i := by omega
          rw [ha2] at hx
          exact hx)
        hf2 hc2
      refine ⟨ihx.1, ?_⟩
      rw [ihx.2]
      simp only [List.get, List.take_succ_cons]
      simp [mcTrace, List.append_assoc, harith]

/-- The open events of the multi-connect trace are the handles
`n, n+1, ...`, one per URL. -/
theorem opensIn_mcTrace (n : Nat) (cache : Option Nat)
    (urls : List String) :
    opensIn (mcTrace n cache urls) = List.range' n urls.length := by
  induction urls generalizing n with
  | nil => rfl
  | cons u rest ih => simp [mcTrace, opensIn, ih, List.range'_succ]

/-- The close events of the multi-connect trace are the same handles, each
closed exactly once. -/
theorem closesIn_mcTrace (n : Nat) (cache : Option Nat)
    (urls : List String) :
    closesIn (mcTrace n cache urls) = List.range' n urls.length := by
  induction urls generalizing n with
  | nil => rfl
  | cons u rest ih => simp [mcTrace, closesIn, ih, List.range'_succ]

/-- C2: with a single URL the probe succeeds exactly when the fetch fails
with a message containing the version-mismatch substring; a successful fetch
yields the error "expected version negotiation to fail", and a failure whose
message lacks the substring yields the error reporting the wrong failure
reason. -/
theorem C2_version_negotiation_result (o : Oracle) (url : String) (s : St) :
    ((runVersionNegotiationTest o [url] s).1 = .ok () ↔
        ∃ e, fetchOutcome o s.nextId url false = .error e ∧
          strContains e vnSubstr = true)
  ∧ (fetchOutcome o s.nextId url false = .ok () →
      (runVersionNegotiationTest o [url] s).1 =
        .error "expected version negotiation to fail")
  ∧ ∀ e, fetchOutcome o s.nextId url false = .error e →
      strContains e vnSubstr = false →
      (runVersionNegotiationTest o [url] s).1 =
        .error ("expect version negotiation error, got: " ++ e) := by
  rw [runVersionNegotiationTest_eq]
  cases hf : fetchOutcome o s.nextId url false with
  | ok v =>
    cases v
    exact ⟨by simp, fun _ => rfl, fun e he => absurd he (by simp)⟩
  | error e0 =>
    cases hc : strContains e0 vnSubstr with
    | true =>
      refine ⟨by simp [hc], fun h => absurd h (by simp), ?_⟩
      intro e he hce
      rw [Except.error.injEq] at he
      subst he
      simp [hc] at hce
    | false =>
      refine ⟨by simp [hc], fun h => absurd h (by simp), ?_⟩
      intro e he _
      rw [Except.error.injEq] at he
      subst he
      simp [hc]

/-- C2 witness: on an oracle whose round trips fail with the
version-mismatch message, the probe succeeds. -/
theorem C2_witness :
    (runVersionNegotiationTest oVNReject ["http://a/x"] st0).1 = .ok () :=
  (C2_version_negotiation_result oVNReject "http://a/x" st0).1.mpr
    ⟨"No compatible QUIC version found", rfl, by decide⟩

/-- C3: the dispatch switch maps `http3` to a plain transfer over the HTTP/3
round-tripper; `handshake`, `transfer` and `retry` to the identical plain
transfer over the HTTP/0.9 round-tripper; `multiconnect`,
`versionnegotiation`, `resumption` and `zerortt` to their strategies (0-RTT
disabled resp. enabled for the last two); and any other identifier to the
unsupported-test-case error with the state untouched. -/
theorem C3_dispatch_mapping (o : Oracle) (urls : List String) (s : St) :
    runTestcase o "http3" urls s = runPlainTransfer o .h3 urls s
  ∧ runTestcase o "handshake" urls s = runPlainTransfer o .h09 urls s
  ∧ runTestcase o "transfer" urls s = runPlainTransfer o .h09 urls s
  ∧ runTestcase o "retry" urls s = runPlainTransfer o .h09 urls s
  ∧ runTestcase o "multiconnect" urls s = runMultiConnectTest o urls s
  ∧ runTestcase o "versionnegotiation" urls s =
      runVersionNegotiationTest o urls s
  ∧ runTestcase o "resumption" urls s = runResumptionTest o urls false s
  ∧ runTestcase o "zerortt" urls s = runResumptionTest o urls true s
  ∧ ∀ tc : String,
      tc ∉ ["http3", "handshake", "transfer", "retry", "multiconnect",
            "versionnegotiation", "resumption", "zerortt"] →
      runTestcase o tc urls s = (.error errUnsupported, s) := by
  refine ⟨rfl, rfl, rfl, rfl, rfl, rfl, rfl, rfl, ?_⟩
  intro tc htc
  simp only [List.mem_cons, List.not_mem_nil, or_false, not_or] at htc
  obtain ⟨h1, h2, h3, h4, h5, h6, h7, h8⟩ := htc
  simp [runTestcase, h1, h2, h3, h4, h5, h6, h7, h8]

/-- C3 witness: an unknown identifier is rejected without any activity. -/
theorem C3_witness :
    runTestcase oAllOk "cuttlefish" ["http://a/x"] st0 =
      (.error errUnsupported, st0) :=
  (C3_dispatch_mapping oAllOk ["http://a/x"] st0).2.2.2.2.2.2.2.2 "cuttlefish"
    (by decide)

/-- C5 counterexample: multi-connect called with no URLs succeeds trivially
instead of failing with an invalid-input error, so the claimed `at least 1`
precondition check does not exist in the code. -/
theorem C5_counterexample :
    runMultiConnectTest oAllOk [] st0 = (.ok (), st0) := rfl

/-- C5 amended: resumption fails with the error "expected at least 2 URLs"
and an untouched state when given fewer than two URLs, and the
version-negotiation probe fails the same way (with its literally copied
message) when given a URL count different from one; multi-connect performs no
URL-count check and returns success on the empty list without any fetch. -/
theorem C5_amended_preconditions (o : Oracle) (s : St) :
    (∀ urls b, urls.length < 2 →
        runResumptionTest o urls b s =
          (.error "expected at least 2 URLs", s))
  ∧ (∀ urls, urls.length ≠ 1 →
        runVersionNegotiationTest o urls s =
          (.error "expected at least 2 URLs", s))
  ∧ runMultiConnectTest o [] s = (.ok (), s) := by
  refine ⟨?_, ?_, rfl⟩
  · intro urls b h
    simp [runResumptionTest, h]
  · intro urls h
    match urls with
    | [] => rfl
    | [u] => exact absurd rfl h
    | u :: v :: rest => rfl

/-- C5 witness: resumption with a single URL is rejected up front. -/
theorem C5_witness :
    runResumptionTest oAllOk ["http://a/1"] false st0 =
      (.error "expected at least 2 URLs", st0) :=
  (C5_amended_preconditions oAllOk st0).1 ["http://a/1"] false (by decide)

/-- C6: the concurrent download group succeeds exactly when every per-URL
fetch succeeds, succeeds trivially on the empty list without touching the
state, surfaces one of the observed per-URL failures otherwise, and records a
fetch event for every URL (every launched invocation runs to completion). -/
theorem C6_downloadFiles_aggregate (o : Oracle) (id : Nat)
    (urls : List String) (b : Bool) (s : St) :
    ((downloadFiles o id urls b s).1 = .ok () ↔
        ∀ u ∈ urls, fetchOutcome o id u b = .ok ())
  ∧ downloadFiles o id [] b s = (.ok (), s)
  ∧ (∀ e, (downloadFiles o id urls b s).1 = .error e →
        ∃ u ∈ urls, fetchOutcome o id u b = .error e)
  ∧ (downloadFiles o id urls b s).2.trace =
      s.trace ++ urls.map (fun u => Ev.fetch id u b) := by
  refine ⟨?_, rfl, ?_, ?_⟩
  · rw [downloadFiles_eq]
    simp [firstErr_ok_iff]
  · intro e he
    rw [downloadFiles_eq] at he
    have hmem := firstErr_error_mem _ _ he
    rw [List.mem_map] at hmem
    obtain ⟨u, hu, hval⟩ := hmem
    exact ⟨u, hu, hval⟩
  · rw [downloadFiles_eq]

/-- C6 witness: a failing fetch among the targets is surfaced. -/
theorem C6_witness :
    ∃ u ∈ ["http://a/x"],
      fetchOutcome oFetchFail 0 u false = .error "connection refused" :=
  (C6_downloadFiles_aggregate oFetchFail 0 ["http://a/x"] false st0).2.2.1
    "connection refused" rfl

/-- C9 counterexample: the probe does not restore the global
supported-versions list; starting from `[1, 2]` it leaves `[0x1a2a3a4a]`
behind. -/
theorem C9_counterexample :
    (runVersionNegotiationTest oVNReject
        ["http://a/x"] st0).2.supportedVersions ≠ st0.supportedVersions := by
  decide

/-- C9 amended: the restriction is permanent, not temporary: whenever the
probe passes its URL-count check it leaves the global supported-versions list
equal to `[reservedVersion]` regardless of the prior value, and it leaves the
list untouched only when the URL-count check fails. -/
theorem C9_amended_versions_overwritten (o : Oracle) (s : St) :
    (∀ url,
        (runVersionNegotiationTest o [url] s).2.supportedVersions =
          [reservedVersion])
  ∧ ∀ urls, urls.length ≠ 1 →
      (runVersionNegotiationTest o urls s).2.supportedVersions =
        s.supportedVersions := by
  constructor
  · intro url
    rw [runVersionNegotiationTest_eq]
  · intro urls h
    match urls with
    | [] => rfl
    | [u] => exact absurd rfl h
    | u :: v :: rest => rfl

/-- C9 witness: with no URLs the probe exits early and the version list is
untouched. -/
theorem C9_witness :
    (runVersionNegotiationTest oAllOk [] st0).2.supportedVersions =
      st0.supportedVersions :=
  (C9_amended_versions_overwritten oAllOk st0).2 [] (by decide)

/-- C10: `downloadFile` creates no file when building the request fails or
when the round trip fails; any file it adds comes from a successful round
trip of the built request and lives at the download root extended by the
request's URL path. -/
theorem C10_no_file_without_response (o : Oracle) (id : Nat) (url : String)
    (b : Bool) (s : St) :
    (∀ e, o.newRequest (if b then methodGet0RTT else methodGet) url =
        .error e → (downloadFile o id url b s).2.files = s.files)
  ∧ (∀ req e,
        o.newRequest (if b then methodGet0RTT else methodGet) url =
          .ok req →
        o.roundTrip id req = .error e →
        (downloadFile o id url b s).2.files = s.files)
  ∧ ∀ p, p ∈ (downloadFile o id url b s).2.files → p ∉ s.files →
      ∃ req,
        o.newRequest (if b then methodGet0RTT else methodGet) url =
          .ok req ∧
        o.roundTrip id req = .ok () ∧ p = downloadRoot ++ req.urlPath := by
  refine ⟨?_, ?_, ?_⟩
  · intro e he
    rw [downloadFile_eq]
    simp [dfFiles, he]
  · intro req e hreq ht
    rw [downloadFile_eq]
    simp [dfFiles, hreq, ht]
  · intro p hp hnp
    rw [downloadFile_eq] at hp
    simp only [List.mem_append] at hp
    rcases hp with h | h
    · exact absurd h hnp
    · cases hreq : o.newRequest (if b then methodGet0RTT else methodGet) url
        with
      | error e => simp [dfFiles, hreq] at h
      | ok req =>
        cases ht : o.roundTrip id req with
        | error e => simp [dfFiles, hreq, ht] at h
        | ok v =>
          cases v
          cases hc : o.createRes (downloadRoot ++ req.urlPath) with
          | error e => simp [dfFiles, hreq, ht, hc] at h
          | ok w =>
            simp only [dfFiles, hreq, ht, hc, List.mem_singleton] at h
            exact ⟨req, rfl, ht, h⟩

/-- C10 witness: a failing round trip leaves the file list untouched. -/
theorem C10_witness :
    (downloadFile oFetchFail 0 "http://a/x" false st0).2.files = st0.files :=
  (C10_no_file_without_response oFetchFail 0 "http://a/x" false st0).2.1
    { method := "GET", urlPath := "http://a/x" } "connection refused" rfl rfl

/-- C4: with at least two URLs, phase 1 of resumption fetches only the first
URL with 0-RTT disabled; on phase-1 failure that error is returned and no
phase-2 event (open, fetch or close) is produced; on phase-1 success a second
handle carrying the same installed session cache fetches exactly the
remaining URLs with the caller-supplied `use0RTT` flag. -/
theorem C4_resumption_phases (o : Oracle) (urls : List String) (b : Bool)
    (s : St) (h : 2 ≤ urls.length) :
    (∀ e, fetchOutcome o s.nextId (urls.headD "") false = .error e →
        (runResumptionTest o urls b s).1 = .error e ∧
        (runResumptionTest o urls b s).2.trace =
          s.trace ++ [.openH s.nextId .h09 true (some s.cacheGen),
                      .fetch s.nextId (urls.headD "") false])
  ∧ (fetchOutcome o s.nextId (urls.headD "") false = .ok () →
        (runResumptionTest o urls b s).1 =
          firstErr
            ((urls.drop 1).map (fun w => fetchOutcome o (s.nextId + 1) w b)) ∧
        (runResumptionTest o urls b s).2.trace =
          s.trace ++
            [.openH s.nextId .h09 true (some s.cacheGen),
             .fetch s.nextId (urls.headD "") false,
             .close s.nextId,
             .openH (s.nextId + 1) .h09 true (some s.cacheGen)] ++
            (urls.drop 1).map (fun w => Ev.fetch (s.nextId + 1) w b) ++
            [.close (s.nextId + 1)]) := by
  cases urls with
  | nil => exact (Nat.not_succ_le_zero 1 h).elim
  | cons u t =>
    cases t with
    | nil => exact (Nat.not_succ_le_self 1 h).elim
    | cons v rest =>
      constructor
      · intro e hf
        simpa using runResumptionTest_phase1_fail o u v rest b s e
          (by simpa using hf)
      · intro hf
        simpa using runResumptionTest_phase1_ok o u v rest b s
          (by simpa using hf)

/-- C4 witness: a concrete two-URL resumption run with 0-RTT disabled for
phase 2. -/
theorem C4_witness :
    (runResumptionTest oAllOk ["http://a/1", "http://a/2"] false st0).1 =
      firstErr ((["http://a/1", "http://a/2"].drop 1).map
        (fun w => fetchOutcome oAllOk (st0.nextId + 1) w false)) ∧
    (runResumptionTest oAllOk ["http://a/1", "http://a/2"] false st0).2.trace
      = st0.trace ++
          [.openH st0.nextId .h09 true (some st0.cacheGen),
           .fetch st0.nextId (["http://a/1", "http://a/2"].headD "") false,
           .close st0.nextId,
           .openH (st0.nextId + 1) .h09 true (some st0.cacheGen)] ++
          (["http://a/1", "http://a/2"].drop 1).map
            (fun w => Ev.fetch (st0.nextId + 1) w false) ++
          [.close (st0.nextId + 1)] :=
  (C4_resumption_phases oAllOk ["http://a/1", "http://a/2"] false st0
    (by decide)).2 rfl

/-- C8 counterexample: in resumption every close fails, yet the strategy
reports success — close errors are discarded, not surfaced. -/
theorem C8_counterexample :
    (runResumptionTest oCloseFail ["http://a/1", "http://a/2"] false st0).1 =
      .ok () := by decide

/-- C8 amended: multi-connect surfaces a close failure as its result, but
resumption discards both the phase-1 close error and the deferred phase-2
close error, and plain transfer discards its deferred close error: their
results do not depend on the close results at all. -/
theorem C8_close_error_handling (o : Oracle)
    (f : Nat → Except String Unit) :
    (∀ u s e, fetchOutcome o s.nextId u false = .ok () →
        o.closeRes s.nextId = .error e →
        (runMultiConnectTest o [u] s).1 = .error e)
  ∧ (∀ urls b s,
        (runResumptionTest { o with closeRes := f } urls b s).1 =
          (runResumptionTest o urls b s).1)
  ∧ ∀ kind urls s,
      (runPlainTransfer { o with closeRes := f } kind urls s).1 =
        (runPlainTransfer o kind urls s).1 := by
  refine ⟨?_, ?_, ?_⟩
  · intro u s e hf hc
    simp [runMultiConnectTest, openHandle, downloadFile_eq, closeHandle,
      pushEv, hf, hc]
  · intro urls b s
    match urls with
    | [] => rfl
    | [u] => rfl
    | u :: v :: rest =>
      cases hf : fetchOutcome o s.nextId u false with
      | ok w =>
        cases w
        rw [(runResumptionTest_phase1_ok { o with closeRes := f }
              u v rest b s hf).1,
            (runResumptionTest_phase1_ok o u v rest b s hf).1]
        simp only [fetchOutcome_closeRes]
      | error e =>
        rw [(runResumptionTest_phase1_fail { o with closeRes := f }
              u v rest b s e hf).1,
            (runResumptionTest_phase1_fail o u v rest b s e hf).1]
  · intro kind urls s
    rw [runPlainTransfer_fst, runPlainTransfer_fst]
    simp only [fetchOutcome_closeRes]

/-- C8 witness: multi-connect surfaces the close failure of its handle. -/
theorem C8_witness :
    (runMultiConnectTest oCloseFail ["http://a/x"] st0).1 =
      .error "close failed" :=
  (C8_close_error_handling oCloseFail (fun _ => .ok ())).1 "http://a/x" st0
    "close failed" rfl rfl

/-- C7: when every fetch and close succeeds, multi-connect succeeds and its
trace is exactly one open/fetch/close block per URL in order (so exactly N
opens and N closes, the handles `nextId, nextId+1, ...`, each close preceding
the next open); the first fetch failure stops the run right after that fetch,
and the first close failure stops it right after that close. -/
theorem C7_multiconnect_sequential (o : Oracle) (urls : List String)
    (s : St) :
    ((∀ i, (hi : i < urls.length) →
        fetchOutcome o (s.nextId + i) (urls.get ⟨i, hi⟩) false = .ok () ∧
        o.closeRes (s.nextId + i) = .ok ()) →
      (runMultiConnectTest o urls s).1 = .ok () ∧
      (runMultiConnectTest o urls s).2.trace =
        s.trace ++ mcTrace s.nextId s.tlsCache urls)
  ∧ opensIn (mcTrace s.nextId s.tlsCache urls) =
      List.range' s.nextId urls.length
  ∧ closesIn (mcTrace s.nextId s.tlsCache urls) =
      List.range' s.nextId urls.length
  ∧ (∀ k e, ∀ (hk : k < urls.length),
      (∀ i, (hi : i < k) →
        fetchOutcome o (s.nextId + i) (urls.get ⟨i, Nat.lt_trans hi hk⟩)
            false = .ok () ∧
        o.closeRes (s.nextId + i) = .ok ()) →
      fetchOutcome o (s.nextId + k) (urls.get ⟨k, hk⟩) false = .error e →
      (runMultiConnectTest o urls s).1 = .error e ∧
      (runMultiConnectTest o urls s).2.trace =
        s.trace ++ mcTrace s.nextId s.tlsCache (urls.take k) ++
          [.openH (s.nextId + k) .h09 true s.tlsCache,
           .fetch (s.nextId + k) (urls.get ⟨k, hk⟩) false])
  ∧ ∀ k e, ∀ (hk : k < urls.length),
      (∀ i, (hi : i < k) →
        fetchOutcome o (s.nextId + i) (urls.get ⟨i, Nat.lt_trans hi hk⟩)
            false = .ok () ∧
        o.closeRes (s.nextId + i) = .ok ()) →
      fetchOutcome o (s.nextId + k) (urls.get ⟨k, hk⟩) false = .ok () →
      o.closeRes (s.nextId + k) = .error e →
      (runMultiConnectTest o urls s).1 = .error e ∧
      (runMultiConnectTest o urls s).2.trace =
        s.trace ++ mcTrace s.nextId s.tlsCache (urls.take k) ++
          [.openH (s.nextId + k) .h09 true s.tlsCache,
           .fetch (s.nextId + k) (urls.get ⟨k, hk⟩) false,
           .close (s.nextId + k)] :=
  ⟨runMultiConnectTest_allOk o urls s,
   opensIn_mcTrace s.nextId s.tlsCache urls,
   closesIn_mcTrace s.nextId s.tlsCache urls,
   fun k e hk => runMultiConnectTest_fetchFail o urls s k e hk,
   fun k e hk => runMultiConnectTest_closeFail o urls s k e hk⟩

/-- C7 witness: two URLs, all stages succeed — two sequential blocks. -/
theorem C7_witness :
    (runMultiConnectTest oAllOk ["http://a/1", "http://a/2"] st0).1 =
        .ok () ∧
    (runMultiConnectTest oAllOk ["http://a/1", "http://a/2"] st0).2.trace =
      st0.trace ++
        mcTrace st0.nextId st0.tlsCache ["http://a/1", "http://a/2"] :=
  (C7_multiconnect_sequential oAllOk ["http://a/1", "http://a/2"] st0).1
    (by decide)

/-- C1 counterexample: a multi-connect run whose single fetch fails opens a
handle and never closes it, so not every opened handle is closed. -/
theorem C1_counterexample :
    opensIn (runMultiConnectTest oFetchFail ["http://a/x"] st0).2.trace =
        [0] ∧
    closesIn (runMultiConnectTest oFetchFail ["http://a/x"] st0).2.trace =
        [] := by
  decide

/-- C1 amended: only plain transfer closes its handle on every exit path.
Resumption closes both handles when phase 1 succeeds but leaks the phase-1
handle when phase 1 fails; the version-negotiation probe never closes the
handle it opens; multi-connect closes a handle only when its fetch
succeeded and leaks it on a fetch failure. -/
theorem C1_amended_handle_closing (o : Oracle) (s : St) :
    (∀ kind urls,
        opensIn (runPlainTransfer o kind urls s).2.trace =
          opensIn s.trace ++ [s.nextId] ∧
        closesIn (runPlainTransfer o kind urls s).2.trace =
          closesIn s.trace ++ [s.nextId])
  ∧ (∀ u v rest b,
        (fetchOutcome o s.nextId u false = .ok () →
          opensIn (runResumptionTest o (u :: v :: rest) b s).2.trace =
            opensIn s.trace ++ [s.nextId, s.nextId + 1] ∧
          closesIn (runResumptionTest o (u :: v :: rest) b s).2.trace =
            closesIn s.trace ++ [s.nextId, s.nextId + 1])
      ∧ ∀ e, fetchOutcome o s.nextId u false = .error e →
          opensIn (runResumptionTest o (u :: v :: rest) b s).2.trace =
            opensIn s.trace ++ [s.nextId] ∧
          closesIn (runResumptionTest o (u :: v :: rest) b s).2.trace =
            closesIn s.trace)
  ∧ (∀ url,
        opensIn (runVersionNegotiationTest o [url] s).2.trace =
          opensIn s.trace ++ [s.nextId] ∧
        closesIn (runVersionNegotiationTest o [url] s).2.trace =
          closesIn s.trace)
  ∧ ∀ u,
      (fetchOutcome o s.nextId u false = .ok () →
        closesIn (runMultiConnectTest o [u] s).2.trace =
          closesIn s.trace ++ [s.nextId])
      ∧ ∀ e, fetchOutcome o s.nextId u false = .error e →
          opensIn (runMultiConnectTest o [u] s).2.trace =
            opensIn s.trace ++ [s.nextId] ∧
          closesIn (runMultiConnectTest o [u] s).2.trace =
            closesIn s.trace := by
  refine ⟨?_, ?_, ?_, ?_⟩
  · intro kind urls
    rw [runPlainTransfer_trace]
    constructor <;>
      simp [opensIn_append, closesIn_append, opensIn_map_fetch,
        closesIn_map_fetch, opensIn, closesIn]
  · intro u v rest b
    constructor
    · intro hf
      rw [(runResumptionTest_phase1_ok o u v rest b s hf).2]
      constructor <;>
        simp [opensIn_append, closesIn_append, opensIn_map_fetch,
          closesIn_map_fetch, opensIn, closesIn]
    · intro e hf
      rw [(runResumptionTest_phase1_fail o u v rest b s e hf).2]
      constructor <;>
        simp [opensIn_append, closesIn_append, opensIn, closesIn]
  · intro url
    rw [runVersionNegotiationTest_eq]
    constructor <;>
      simp [opensIn_append, closesIn_append, opensIn, closesIn]
  · intro u
    constructor
    · intro hf
      cases hc : o.closeRes s.nextId with
      | ok w =>
        cases w
        rw [runMultiConnectTest_step_ok o u [] s hf hc]
        simp [runMultiConnectTest, closesIn_append, closesIn]
      | error e =>
        rw [(runMultiConnectTest_head_closeFail o u [] s e hf hc).2]
        simp [closesIn_append, closesIn]
    · intro e hf
      have hh := runMultiConnectTest_head_fetchFail o u [] s e hf
      constructor
      · rw [hh.2]
        simp [opensIn_append, opensIn]
      · rw [hh.2]
        simp [closesIn_append, closesIn]

/-- C1 witness: a successful two-URL resumption run opens and closes
exactly its two handles. -/
theorem C1_witness :
    opensIn (runResumptionTest oAllOk
        ("http://a/1" :: "http://a/2" :: []) false st0).2.trace =
      opensIn st0.trace ++ [st0.nextId, st0.nextId + 1] ∧
    closesIn (runResumptionTest oAllOk
        ("http://a/1" :: "http://a/2" :: []) false st0).2.trace =
      closesIn st0.trace ++ [st0.nextId, st0.nextId + 1] :=
  ((C1_amended_handle_closing oAllOk st0).2.1 "http://a/1" "http://a/2" []
      false).1 rfl

end Interop
